import Mathlib

/-!
Verification of the 2D physics puzzle engine (repository basicPhySimulator).

The development shallowly embeds the physics core of src/main.rs (the
canonical puzzle variant) and the pairwise collision resolver of
src/old.rs (the sandbox variant) over the real numbers: the Rust f32
arithmetic is idealized as exact real arithmetic, which is the reading
the specification itself uses.  Rendering, window management and input
handling are outside the embedded core, exactly as the specification
scopes them out.

Source correspondence:
 - Vec2 and its operations           : main.rs lines 35-83 (old.rs identical)
 - PhysicsObject / Wall / Spring     : main.rs lines 19-98 (color omitted: render-only)
 - GameState / PhysicsApp            : main.rs lines 100-119 (UI-only fields omitted)
 - reset_simulation                  : main.rs lines 589-597
 - update_physics and its stages     : main.rs lines 599-744
 - old variant pairwise resolver     : old.rs lines 233-271
-/

noncomputable section

/-- Two dimensional vector of reals, mirroring struct Vec2 of main.rs. -/
@[ext] structure Vec2 where
  x : ℝ
  y : ℝ

namespace Vec2

instance : Add Vec2 := ⟨fun a b => ⟨a.x + b.x, a.y + b.y⟩⟩

instance : Sub Vec2 := ⟨fun a b => ⟨a.x - b.x, a.y - b.y⟩⟩

/-- Scalar multiplication, mirroring impl Mul of f32 for Vec2. -/
def mul (a : Vec2) (s : ℝ) : Vec2 := ⟨a.x * s, a.y * s⟩

/-- Euclidean length, mirroring Vec2.length of main.rs. -/
def length (a : Vec2) : ℝ := Real.sqrt (a.x * a.x + a.y * a.y)

/-- Normalization: divides by the length when it is positive and
otherwise returns the vector unchanged, mirroring Vec2.normalized. -/
def normalized (a : Vec2) : Vec2 :=
  if a.length > 0 then ⟨a.x / a.length, a.y / a.length⟩ else a

/-- Dot product, mirroring Vec2.dot. -/
def dot (a b : Vec2) : ℝ := a.x * b.x + a.y * b.y

@[simp] theorem add_def (a b : Vec2) : a + b = ⟨a.x + b.x, a.y + b.y⟩ := rfl

@[simp] theorem sub_def (a b : Vec2) : a - b = ⟨a.x - b.x, a.y - b.y⟩ := rfl

@[simp] theorem mul_def (a : Vec2) (s : ℝ) : a.mul s = ⟨a.x * s, a.y * s⟩ := rfl

@[simp] theorem dot_def (a b : Vec2) : a.dot b = a.x * b.x + a.y * b.y := rfl

theorem mul_add_vec (a b : Vec2) (s : ℝ) : (a + b).mul s = a.mul s + b.mul s := by
  ext <;> simp [add_mul]

theorem zero_mul_vec (s : ℝ) : (Vec2.mk 0 0).mul s = Vec2.mk 0 0 := by
  simp

theorem add_zero_vec (a : Vec2) : a + Vec2.mk 0 0 = a := by
  ext <;> simp

theorem zero_add_vec (a : Vec2) : Vec2.mk 0 0 + a = a := by
  ext <;> simp

end Vec2

/-- Physics body, mirroring struct PhysicsObject of main.rs.
The color field is omitted: it is only read by the renderer. -/
structure PhysicsObject where
  pos : Vec2
  vel : Vec2
  acc : Vec2
  radius : ℝ
  mass : ℝ
  bounciness : ℝ
  is_goal : Bool
  is_player : Bool
  fixed : Bool
  initial_pos : Vec2
  initial_vel : Vec2

/-- Line-segment wall, mirroring struct Wall of main.rs.
The source field named end is called endp here, end being reserved. -/
structure Wall where
  start : Vec2
  endp : Vec2
  is_user_placed : Bool

/-- Anchor spring, mirroring struct Spring of main.rs. -/
structure Spring where
  object_index : ℕ
  anchor : Option ℕ
  anchor_pos : Vec2
  rest_length : ℝ
  stiffness : ℝ

/-- Simulation state machine, mirroring enum GameState of main.rs. -/
inductive GameState where
  | Planning
  | Simulating
  | Won
deriving DecidableEq

/-- Simulation-relevant state of struct PhysicsApp of main.rs.
The win timestamp is modelled as an optional real number; the current
wall-clock time is passed to update_physics as the parameter now.
UI-only fields (level, placing_wall, max_walls, canvas_rect, last_time)
are omitted. -/
structure PhysicsApp where
  objects : List PhysicsObject
  walls : List Wall
  springs : List Spring
  gravity : Vec2
  bounds : ℝ × ℝ
  game_state : GameState
  win_time : Option ℝ

/-- Writes one index of a list, mirroring an indexed store through
split_at_mut; out-of-range indices leave the list unchanged. -/
def listSet {α : Type} : List α → ℕ → α → List α
  | [], _, _ => []
  | _ :: t, 0, a => a :: t
  | h :: t, n + 1, a => h :: listSet t n a

/-- Applies a function at one index of a list, mirroring the
if-let-Some pattern over Vec get_mut; out-of-range indices leave the
list unchanged. -/
def listUpdate {α : Type} : List α → ℕ → (α → α) → List α
  | [], _, _ => []
  | h :: t, 0, f => f h :: t
  | h :: t, n + 1, f => h :: listUpdate t n f

/-- Resolution of a spring's anchor position: either the position of the
anchor body (a fallible index lookup) or the stored fixed point,
mirroring main.rs lines 608-612. -/
def anchorPosOf (objects : List PhysicsObject) (s : Spring) : Option Vec2 :=
  match s.anchor with
  | some ai => (objects.get? ai).map (fun a => a.pos)
  | none => some s.anchor_pos

/-- First-pass spring force computation, mirroring the filter_map over
springs of main.rs lines 605-623: a failed body lookup, a failed anchor
lookup, or a zero anchor distance yields none (no force this step). -/
def springForce (objects : List PhysicsObject) (s : Spring) : Option (ℕ × Vec2) :=
  match objects.get? s.object_index with
  | none => none
  | some obj =>
    match anchorPosOf objects s with
    | none => none
    | some ap =>
      let to_anchor := ap - obj.pos
      let distance := to_anchor.length
      if distance = 0 then none
      else
        let direction := to_anchor.mul (1 / distance)
        let stretch := distance - s.rest_length
        some (s.object_index, direction.mul (stretch * s.stiffness))

/-- Application of one collected spring force to its target body,
mirroring the loop body of main.rs lines 625-631: the force is added to
the acceleration scaled by the inverse mass, unless the body is fixed. -/
def springApplyOne (f : ℕ × Vec2) (obj : PhysicsObject) : PhysicsObject :=
  if !obj.fixed then { obj with acc := obj.acc + f.2.mul (1 / obj.mass) } else obj

/-- Application of all collected spring forces in order, mirroring
main.rs lines 625-631; a stale index is a no-op. -/
def applySpringForces (objects : List PhysicsObject) (forces : List (ℕ × Vec2)) :
    List PhysicsObject :=
  forces.foldl (fun objs f => listUpdate objs f.1 (springApplyOne f)) objects

/-- Spring stage of update_physics: collect forces from the prior-step
positions, then apply them (main.rs lines 604-631). -/
def springPhase (app : PhysicsApp) : PhysicsApp :=
  { app with objects :=
      applySpringForces app.objects (app.springs.filterMap (springForce app.objects)) }

/-- Semi-implicit Euler integration of one body, mirroring main.rs lines
634-641: gravity accumulates into acceleration, velocity integrates,
acceleration resets, position integrates; fixed bodies are skipped. -/
def integrateObj (gravity : Vec2) (dt : ℝ) (obj : PhysicsObject) : PhysicsObject :=
  if !obj.fixed then
    let acc1 := obj.acc + gravity
    let vel1 := obj.vel + acc1.mul dt
    { obj with acc := Vec2.mk 0 0, vel := vel1, pos := obj.pos + vel1.mul dt }
  else obj

/-- Integration stage of update_physics. -/
def integratePhase (dt : ℝ) (app : PhysicsApp) : PhysicsApp :=
  { app with objects := app.objects.map (integrateObj app.gravity dt) }

/-- Left margin of the playing field, mirroring the constant
boarder_start of main.rs line 645. -/
def boarder_start : ℝ := 210

/-- Boundary resolution of one body, mirroring main.rs lines 644-663:
clamp to each edge and reflect the perpendicular velocity scaled by the
body's bounciness; fixed bodies are skipped. -/
def boundaryObj (bounds : ℝ × ℝ) (obj : PhysicsObject) : PhysicsObject :=
  if obj.fixed then obj
  else
    let obj1 :=
      if obj.pos.x - obj.radius < boarder_start then
        { obj with pos := ⟨obj.radius + boarder_start, obj.pos.y⟩,
                   vel := ⟨-obj.vel.x * obj.bounciness, obj.vel.y⟩ }
      else if obj.pos.x + obj.radius > bounds.1 + boarder_start then
        { obj with pos := ⟨bounds.1 - obj.radius + boarder_start, obj.pos.y⟩,
                   vel := ⟨-obj.vel.x * obj.bounciness, obj.vel.y⟩ }
      else obj
    if obj1.pos.y - obj1.radius < 15 then
      { obj1 with pos := ⟨obj1.pos.x, obj1.radius⟩,
                  vel := ⟨obj1.vel.x, -obj1.vel.y * obj1.bounciness⟩ }
    else if obj1.pos.y + obj1.radius > bounds.2 then
      { obj1 with pos := ⟨obj1.pos.x, bounds.2 - obj1.radius⟩,
                  vel := ⟨obj1.vel.x, -obj1.vel.y * obj1.bounciness⟩ }
    else obj1

/-- Boundary stage of update_physics. -/
def boundaryPhase (app : PhysicsApp) : PhysicsApp :=
  { app with objects := app.objects.map (boundaryObj app.bounds) }

/-- Goal-hit condition of main.rs line 680: some body of the pair is a
goal body whose partner is neither the player body nor fixed. -/
def goalFired (o1 o2 : PhysicsObject) : Bool :=
  (o1.is_goal && (!o2.is_player && !o2.fixed)) ||
  (o2.is_goal && (!o1.is_player && !o1.fixed))

/-- State-machine effect of a goal hit, mirroring main.rs lines
680-685: on a fired goal condition and a state that is not already Won,
move to Won and record the current time; otherwise change nothing. -/
def goalCheck (st : GameState) (wt : Option ℝ) (now : ℝ) (fired : Bool) :
    GameState × Option ℝ :=
  if fired then
    if st = GameState.Won then (st, wt) else (GameState.Won, some now)
  else (st, wt)

/-- Resolution of one unordered pair of bodies, mirroring the loop body
of main.rs lines 674-712: on overlap, the goal-hit check may move the
state machine to Won, then mass-weighted positional separation and the
restitution impulse are applied to the non-fixed bodies of the pair. -/
def collidePair (st : GameState) (wt : Option ℝ) (now : ℝ)
    (o1 o2 : PhysicsObject) : PhysicsObject × PhysicsObject × GameState × Option ℝ :=
  let delta_pos := o2.pos - o1.pos
  let dist := delta_pos.length
  let min_dist := o1.radius + o2.radius
  if dist < min_dist then
    let stwt : GameState × Option ℝ := goalCheck st wt now (goalFired o1 o2)
    let normal := delta_pos.normalized
    let overlap := min_dist - dist
    let separation := normal.mul (overlap / 2)
    let total_mass := o1.mass + o2.mass
    let o1 := if !o1.fixed then
        { o1 with pos := o1.pos - separation.mul (o2.mass / total_mass) } else o1
    let o2 := if !o2.fixed then
        { o2 with pos := o2.pos + separation.mul (o1.mass / total_mass) } else o2
    let rel_vel := o2.vel - o1.vel
    let vel_along_normal := rel_vel.dot normal
    let least_bounciness := min o1.bounciness o2.bounciness
    let impulse_mag := (-(1 + least_bounciness) * vel_along_normal) /
      (1 / o1.mass + 1 / o2.mass)
    let o1 := if !o1.fixed then
        { o1 with vel := o1.vel - (normal.mul impulse_mag).mul (1 / o1.mass) } else o1
    let o2 := if !o2.fixed then
        { o2 with vel := o2.vel + (normal.mul impulse_mag).mul (1 / o2.mass) } else o2
    (o1, o2, stwt.1, stwt.2)
  else (o1, o2, st, wt)

/-- One iteration of the pairwise loop at indices i and j: reads the two
bodies, resolves the pair, writes both back.  In the source the indices
are in range by construction; an out-of-range index is a no-op here. -/
def collideAt (now : ℝ) (app : PhysicsApp) (i j : ℕ) : PhysicsApp :=
  match app.objects.get? i, app.objects.get? j with
  | some o1, some o2 =>
      let r := collidePair app.game_state app.win_time now o1 o2
      { app with objects := listSet (listSet app.objects i r.1) j r.2.1,
                 game_state := r.2.2.1, win_time := r.2.2.2 }
  | _, _ => app

/-- Pairwise collision stage of update_physics, mirroring the double
index loop of main.rs lines 666-714. -/
def pairwisePhase (now : ℝ) (app : PhysicsApp) : PhysicsApp :=
  let len := app.objects.length
  (List.range len).foldl
    (fun a i => (List.range' (i + 1) (len - (i + 1))).foldl
      (fun a2 j => collideAt now a2 i j) a)
    app

/-- Rust f32 signum restricted to the reals: 1 for nonnegative inputs,
-1 for negative inputs (f32 signum maps positive zero to 1). -/
def signum (x : ℝ) : ℝ := if x < 0 then -1 else 1

/-- Length of a wall segment (main.rs line 722). -/
def wallLen (w : Wall) : ℝ := (w.endp - w.start).length

/-- Unit direction of a wall segment (main.rs line 723). -/
def wallDir (w : Wall) : Vec2 := (w.endp - w.start).mul (1 / wallLen w)

/-- Left normal of a wall segment (main.rs line 729). -/
def wallNormal (w : Wall) : Vec2 := ⟨-(wallDir w).y, (wallDir w).x⟩

/-- Projection of a body center along a wall (main.rs line 726). -/
def alongWall (w : Wall) (obj : PhysicsObject) : ℝ := (obj.pos - w.start).dot (wallDir w)

/-- Signed perpendicular distance of a body center to a wall line
(main.rs line 730). -/
def wallDist (w : Wall) (obj : PhysicsObject) : ℝ := (obj.pos - w.start).dot (wallNormal w)

/-- Resolution of one body against one wall, mirroring main.rs lines
721-741: within the segment span and the radius, push the body out
along the normal and reflect an opposing normal velocity. -/
def wallStepOne (w : Wall) (obj : PhysicsObject) : PhysicsObject :=
  if 0 ≤ alongWall w obj ∧ alongWall w obj ≤ wallLen w then
    if |wallDist w obj| ≤ obj.radius then
      let penetration := obj.radius - |wallDist w obj|
      let obj1 := { obj with
        pos := obj.pos + (wallNormal w).mul (penetration * signum (wallDist w obj)) }
      let vel_normal := obj1.vel.dot (wallNormal w)
      if vel_normal * wallDist w obj < 0 then
        { obj1 with vel := obj1.vel - (wallNormal w).mul (vel_normal * (1 + obj1.bounciness)) }
      else obj1
    else obj
  else obj

/-- Resolution of one body against every wall in order, mirroring
main.rs lines 717-743; fixed bodies are skipped. -/
def wallCollideObj (walls : List Wall) (obj : PhysicsObject) : PhysicsObject :=
  if obj.fixed then obj
  else walls.foldl (fun o w => wallStepOne w o) obj

/-- Wall collision stage of update_physics. -/
def wallPhase (app : PhysicsApp) : PhysicsApp :=
  { app with objects := app.objects.map (wallCollideObj app.walls) }

/-- One full physics step, mirroring update_physics of main.rs lines
599-744: a no-op unless the state machine is Simulating, otherwise
springs, integration, boundaries, pairwise collisions and wall
collisions run in that order. -/
def update_physics (app : PhysicsApp) (dt now : ℝ) : PhysicsApp :=
  match app.game_state with
  | GameState.Simulating =>
      wallPhase (pairwisePhase now (boundaryPhase (integratePhase dt (springPhase app))))
  | _ => app

/-- Reset, mirroring reset_simulation of main.rs lines 589-597: every
body returns to its recorded initial position and velocity with zeroed
acceleration, the state machine returns to Planning and the win time is
cleared; walls and springs are untouched. -/
def reset_simulation (app : PhysicsApp) : PhysicsApp :=
  { app with
    objects := app.objects.map
      (fun o => { o with pos := o.initial_pos, vel := o.initial_vel, acc := Vec2.mk 0 0 }),
    game_state := GameState.Planning,
    win_time := none }

/-- Physics body of the sandbox variant, mirroring struct PhysicsObject
of old.rs (no role flags, no recorded initial state). -/
structure OldObject where
  pos : Vec2
  vel : Vec2
  acc : Vec2
  radius : ℝ
  mass : ℝ
  bounciness : ℝ

/-- Pairwise resolver of the sandbox variant, mirroring the loop body of
old.rs lines 243-269: identical mathematics to the puzzle variant but
with no goal check and no fixed-body guards. -/
def old_collide_pair (o1 o2 : OldObject) : OldObject × OldObject :=
  let delta_pos := o2.pos - o1.pos
  let dist := delta_pos.length
  let min_dist := o1.radius + o2.radius
  if dist < min_dist then
    let normal := delta_pos.normalized
    let overlap := min_dist - dist
    let separation := normal.mul (overlap / 2)
    let total_mass := o1.mass + o2.mass
    let o1 := { o1 with pos := o1.pos - separation.mul (o2.mass / total_mass) }
    let o2 := { o2 with pos := o2.pos + separation.mul (o1.mass / total_mass) }
    let rel_vel := o2.vel - o1.vel
    let vel_along_normal := rel_vel.dot normal
    let least_bounciness := min o1.bounciness o2.bounciness
    let impulse_mag := (-(1 + least_bounciness) * vel_along_normal) /
      (1 / o1.mass + 1 / o2.mass)
    let o1 := { o1 with vel := o1.vel - (normal.mul impulse_mag).mul (1 / o1.mass) }
    let o2 := { o2 with vel := o2.vel + (normal.mul impulse_mag).mul (1 / o2.mass) }
    (o1, o2)
  else (o1, o2)

/-- Embedding of a sandbox body into the puzzle variant's body type with
all role flags cleared. -/
def toNew (o : OldObject) : PhysicsObject :=
  { pos := o.pos, vel := o.vel, acc := o.acc, radius := o.radius, mass := o.mass,
    bounciness := o.bounciness, is_goal := false, is_player := false, fixed := false,
    initial_pos := o.pos, initial_vel := o.vel }

end

/-! Helper lemmas about the list primitives and square roots. -/

theorem length_listSet {α : Type} (l : List α) (i : ℕ) (a : α) :
    (listSet l i a).length = l.length := by
  induction l generalizing i with
  | nil => cases i <;> rfl
  | cons h t ih => cases i with
    | zero => rfl
    | succ n => simpa [listSet] using ih n

theorem get?_listSet_self {α : Type} (l : List α) (i : ℕ) (a : α) (h : i < l.length) :
    (listSet l i a).get? i = some a := by
  induction l generalizing i with
  | nil => simp at h
  | cons hd t ih => cases i with
    | zero => rfl
    | succ n => simpa [listSet] using ih n (by simpa using h)

theorem get?_listSet_ne {α : Type} (l : List α) (i j : ℕ) (a : α) (h : i ≠ j) :
    (listSet l i a).get? j = l.get? j := by
  induction l generalizing i j with
  | nil => cases i <;> rfl
  | cons hd t ih => cases i with
    | zero => cases j with
      | zero => exact absurd rfl h
      | succ m => rfl
    | succ n => cases j with
      | zero => rfl
      | succ m => simpa [listSet] using ih n m (by omega)

theorem get?_listUpdate_self {α : Type} (l : List α) (i : ℕ) (f : α → α) :
    (listUpdate l i f).get? i = (l.get? i).map f := by
  induction l generalizing i with
  | nil => cases i <;> rfl
  | cons hd t ih => cases i with
    | zero => rfl
    | succ n => simpa [listUpdate] using ih n

theorem get?_listUpdate_ne {α : Type} (l : List α) (i j : ℕ) (f : α → α) (h : i ≠ j) :
    (listUpdate l i f).get? j = l.get? j := by
  induction l generalizing i j with
  | nil => cases i <;> rfl
  | cons hd t ih => cases i with
    | zero => cases j with
      | zero => exact absurd rfl h
      | succ m => rfl
    | succ n => cases j with
      | zero => rfl
      | succ m => simpa [listUpdate] using ih n m (by omega)

theorem get?_some_lt {α : Type} : ∀ (l : List α) (n : ℕ) (a : α),
    l.get? n = some a → n < l.length := by
  intro l
  induction l with
  | nil => intro n a h; cases n <;> simp [List.get?] at h
  | cons hd t ih =>
      intro n a h
      cases n with
      | zero => simp
      | succ m => simpa using ih m a (by simpa [List.get?] using h)

theorem foldl_inv {α β : Type} (P : β → Prop) (f : β → α → β)
    (h : ∀ b a, P b → P (f b a)) :
    ∀ (l : List α) (s : β), P s → P (l.foldl f s) := by
  intro l
  induction l with
  | nil => intro s hs; simpa using hs
  | cons a t ih => intro s hs; exact ih (f s a) (h s a hs)

theorem sqrt_eval (a b : ℝ) (hb : 0 ≤ b) (h : a = b * b) : Real.sqrt a = b := by
  subst h; exact Real.sqrt_mul_self hb

/-! Aggregation of the spring-force pass. -/

/-- Sum of the collected forces that target body index k. -/
def sumForcesFor (k : ℕ) : List (ℕ × Vec2) → Vec2
  | [] => Vec2.mk 0 0
  | f :: fs => (if f.1 = k then f.2 else Vec2.mk 0 0) + sumForcesFor k fs

theorem applySpringForces_get? (fs : List (ℕ × Vec2)) :
    ∀ (objects : List PhysicsObject) (k : ℕ) (o : PhysicsObject),
    objects.get? k = some o →
    (applySpringForces objects fs).get? k =
      some (if o.fixed then o
            else { o with acc := o.acc + (sumForcesFor k fs).mul (1 / o.mass) }) := by
  induction fs with
  | nil =>
      intro objects k o h
      obtain ⟨op, ov, oa, orad, om, ob, og, opl, ofx, oip, oiv⟩ := o
      rw [show applySpringForces objects [] = objects from rfl, h]
      cases ofx <;> simp [sumForcesFor]
  | cons f fs ih =>
      intro objects k o h
      obtain ⟨op, ov, oa, orad, om, ob, og, opl, ofx, oip, oiv⟩ := o
      rw [show applySpringForces objects (f :: fs)
          = applySpringForces (listUpdate objects f.1 (springApplyOne f)) fs from rfl]
      by_cases hik : f.1 = k
      · subst hik
        have hget := get?_listUpdate_self objects f.1 (springApplyOne f)
        rw [h] at hget
        cases ofx
        · rw [ih _ f.1 _ hget]
          simp [springApplyOne, sumForcesFor, Vec2.mul_add_vec, add_assoc]
          constructor <;> ring
        · rw [ih _ f.1 _ hget]
          simp [springApplyOne, sumForcesFor]
      · have hget : (listUpdate objects f.1 (springApplyOne f)).get? k
            = some ⟨op, ov, oa, orad, om, ob, og, opl, ofx, oip, oiv⟩ := by
          rw [get?_listUpdate_ne _ _ _ _ hik]; exact h
        rw [ih _ k _ hget]
        cases ofx <;> simp [sumForcesFor, hik, Vec2.zero_add_vec]

/-! Preservation of fixed bodies through every stage. -/

theorem collidePair_fst_fixed (st : GameState) (wt : Option ℝ) (now : ℝ)
    (o1 o2 : PhysicsObject) (h : o1.fixed = true) :
    (collidePair st wt now o1 o2).1 = o1 := by
  simp only [collidePair]
  split
  · simp [h]
  · rfl

theorem collidePair_snd_fixed (st : GameState) (wt : Option ℝ) (now : ℝ)
    (o1 o2 : PhysicsObject) (h : o2.fixed = true) :
    (collidePair st wt now o1 o2).2.1 = o2 := by
  simp only [collidePair]
  split
  · simp [h]
  · rfl

theorem collideAt_fixed_preserve (now : ℝ) (k : ℕ) (o : PhysicsObject)
    (ho : o.fixed = true) (a : PhysicsApp) (i j : ℕ)
    (h : a.objects.get? k = some o) :
    (collideAt now a i j).objects.get? k = some o := by
  unfold collideAt
  cases h1 : a.objects.get? i with
  | none => exact h
  | some o1 =>
    cases h2 : a.objects.get? j with
    | none => exact h
    | some o2 =>
      simp only []
      by_cases hjk : j = k
      · subst hjk
        have ho2 : o2 = o := by rw [h] at h2; exact (Option.some.injEq _ _).mp h2.symm
        subst ho2
        rw [get?_listSet_self]
        · rw [collidePair_snd_fixed _ _ _ _ _ ho]
        · rw [length_listSet]
          exact get?_some_lt _ _ _ h
      · rw [get?_listSet_ne _ _ _ _ hjk]
        by_cases hik : i = k
        · subst hik
          have ho1 : o1 = o := by rw [h] at h1; exact (Option.some.injEq _ _).mp h1.symm
          subst ho1
          rw [get?_listSet_self _ _ _ (get?_some_lt _ _ _ h)]
          rw [collidePair_fst_fixed _ _ _ _ _ ho]
        · rw [get?_listSet_ne _ _ _ _ hik]
          exact h

theorem springPhase_fixed (app : PhysicsApp) (k : ℕ) (o : PhysicsObject)
    (h : app.objects.get? k = some o) (ho : o.fixed = true) :
    (springPhase app).objects.get? k = some o := by
  have := applySpringForces_get? (app.springs.filterMap (springForce app.objects))
    app.objects k o h
  simpa [springPhase, ho] using this

theorem integratePhase_fixed (dt : ℝ) (app : PhysicsApp) (k : ℕ) (o : PhysicsObject)
    (h : app.objects.get? k = some o) (ho : o.fixed = true) :
    (integratePhase dt app).objects.get? k = some o := by
  unfold integratePhase
  rw [show (app.objects.map (integrateObj app.gravity dt)).get? k
      = (app.objects.get? k).map (integrateObj app.gravity dt) from List.get?_map _ _ _, h]
  simp [integrateObj, ho]

theorem boundaryPhase_fixed (app : PhysicsApp) (k : ℕ) (o : PhysicsObject)
    (h : app.objects.get? k = some o) (ho : o.fixed = true) :
    (boundaryPhase app).objects.get? k = some o := by
  unfold boundaryPhase
  rw [show (app.objects.map (boundaryObj app.bounds)).get? k
      = (app.objects.get? k).map (boundaryObj app.bounds) from List.get?_map _ _ _, h]
  simp [boundaryObj, ho]

theorem wallPhase_fixed (app : PhysicsApp) (k : ℕ) (o : PhysicsObject)
    (h : app.objects.get? k = some o) (ho : o.fixed = true) :
    (wallPhase app).objects.get? k = some o := by
  unfold wallPhase
  rw [show (app.objects.map (wallCollideObj app.walls)).get? k
      = (app.objects.get? k).map (wallCollideObj app.walls) from List.get?_map _ _ _, h]
  simp [wallCollideObj, ho]

theorem pairwisePhase_fixed (now : ℝ) (app : PhysicsApp) (k : ℕ) (o : PhysicsObject)
    (h : app.objects.get? k = some o) (ho : o.fixed = true) :
    (pairwisePhase now app).objects.get? k = some o := by
  simp only [pairwisePhase]
  apply foldl_inv (fun a : PhysicsApp => a.objects.get? k = some o)
  · intro b i hb
    apply foldl_inv (fun a : PhysicsApp => a.objects.get? k = some o)
    · intro b2 j hb2
      exact collideAt_fixed_preserve now k o ho b2 i j hb2
    · exact hb
  · exact h

/-- Claim C3: a body with the fixed flag set is left entirely unchanged
(in particular its position and velocity) by a full physics update step
(spring forces, integration, boundary resolution, pairwise collision
resolution, wall collision resolution), for every simulation state and
every timestep. -/
theorem c3_fixed_body_invariant (app : PhysicsApp) (dt now : ℝ) (k : ℕ)
    (o : PhysicsObject) (hk : app.objects.get? k = some o) (ho : o.fixed = true) :
    (update_physics app dt now).objects.get? k = some o := by
  unfold update_physics
  cases hst : app.game_state with
  | Planning => exact hk
  | Won => exact hk
  | Simulating =>
      exact wallPhase_fixed _ k o
        (pairwisePhase_fixed now _ k o
          (boundaryPhase_fixed _ k o
            (integratePhase_fixed dt _ k o
              (springPhase_fixed app k o hk ho) ho) ho) ho) ho

/-- Concrete fixed blocker body (the heavy blocker of level 1). -/
noncomputable def c3FixedObj : PhysicsObject :=
  { pos := ⟨400, 300⟩, vel := ⟨0, 0⟩, acc := ⟨0, 0⟩, radius := 65, mass := 15,
    bounciness := 1 / 10, is_goal := false, is_player := false, fixed := true,
    initial_pos := ⟨400, 300⟩, initial_vel := ⟨0, 0⟩ }

/-- Concrete running app holding only the fixed blocker. -/
noncomputable def c3App : PhysicsApp :=
  { objects := [c3FixedObj], walls := [], springs := [], gravity := ⟨0, 400⟩,
    bounds := (800, 600), game_state := GameState.Simulating, win_time := none }

/-- Witness for C3 at a concrete simulating app and timestep. -/
theorem c3_witness : (update_physics c3App 1 2).objects.get? 0 = some c3FixedObj :=
  c3_fixed_body_invariant c3App 1 2 0 c3FixedObj rfl rfl

/-! Claim C1: the pairwise resolver's positional correction and impulse. -/

/-- Claim C1: whenever the two circles overlap, the resolver pushes each
non-fixed body apart along the normalized delta by half the overlap
weighted by the other body's mass fraction (fixed bodies are never
displaced), and applies the restitution impulse scaled by the inverse
mass to each non-fixed body; there is no early exit for separating
bodies (no hypothesis on the sign of the relative normal velocity). -/
theorem c1_pairwise_resolution (st : GameState) (wt : Option ℝ) (now : ℝ)
    (o1 o2 : PhysicsObject)
    (h : (o2.pos - o1.pos).length < o1.radius + o2.radius) :
    ((collidePair st wt now o1 o2).1.pos =
      if o1.fixed then o1.pos
      else o1.pos - ((o2.pos - o1.pos).normalized.mul
        ((o1.radius + o2.radius - (o2.pos - o1.pos).length) / 2)).mul
        (o2.mass / (o1.mass + o2.mass))) ∧
    ((collidePair st wt now o1 o2).2.1.pos =
      if o2.fixed then o2.pos
      else o2.pos + ((o2.pos - o1.pos).normalized.mul
        ((o1.radius + o2.radius - (o2.pos - o1.pos).length) / 2)).mul
        (o1.mass / (o1.mass + o2.mass))) ∧
    ((collidePair st wt now o1 o2).1.vel =
      if o1.fixed then o1.vel
      else o1.vel - ((o2.pos - o1.pos).normalized.mul
        ((-(1 + min o1.bounciness o2.bounciness) *
          ((o2.vel - o1.vel).dot (o2.pos - o1.pos).normalized)) /
         (1 / o1.mass + 1 / o2.mass))).mul (1 / o1.mass)) ∧
    ((collidePair st wt now o1 o2).2.1.vel =
      if o2.fixed then o2.vel
      else o2.vel + ((o2.pos - o1.pos).normalized.mul
        ((-(1 + min o1.bounciness o2.bounciness) *
          ((o2.vel - o1.vel).dot (o2.pos - o1.pos).normalized)) /
         (1 / o1.mass + 1 / o2.mass))).mul (1 / o2.mass)) := by
  simp only [collidePair]
  rw [if_pos h]
  by_cases hf1 : o1.fixed <;> by_cases hf2 : o2.fixed <;>
    simp [hf1, hf2]

/-- Concrete separating overlapping pair for the C1 witness. -/
noncomputable def c1A : PhysicsObject :=
  { pos := ⟨0, 0⟩, vel := ⟨-3, 0⟩, acc := ⟨0, 0⟩, radius := 2, mass := 1,
    bounciness := 1, is_goal := false, is_player := false, fixed := false,
    initial_pos := ⟨0, 0⟩, initial_vel := ⟨-3, 0⟩ }

/-- Concrete separating overlapping pair for the C1 witness. -/
noncomputable def c1B : PhysicsObject :=
  { pos := ⟨3, 0⟩, vel := ⟨5, 0⟩, acc := ⟨0, 0⟩, radius := 2, mass := 1,
    bounciness := 1 / 2, is_goal := false, is_player := false, fixed := false,
    initial_pos := ⟨3, 0⟩, initial_vel := ⟨5, 0⟩ }

/-- Witness for C1 on a concrete overlapping pair that is already
separating (relative velocity along the normal is positive), showing
the resolver still applies the impulse. -/
theorem c1_witness :
    (c1B.pos - c1A.pos).length < c1A.radius + c1B.radius ∧
    ((c1B.vel - c1A.vel).dot (c1B.pos - c1A.pos).normalized > 0) ∧
    (collidePair GameState.Simulating none 0 c1A c1B).1.vel = Vec2.mk 3 0 ∧
    (collidePair GameState.Simulating none 0 c1A c1B).2.1.vel = Vec2.mk (-1) 0 ∧
    (collidePair GameState.Simulating none 0 c1A c1B).1.pos = Vec2.mk (-(1 / 4)) 0 ∧
    (collidePair GameState.Simulating none 0 c1A c1B).2.1.pos = Vec2.mk (13 / 4) 0 := by
  have hlen : (c1B.pos - c1A.pos).length = 3 := by
    simp only [c1A, c1B, Vec2.sub_def, Vec2.length]
    norm_num
    exact sqrt_eval 9 3 (by norm_num) (by norm_num)
  have hov : (c1B.pos - c1A.pos).length < c1A.radius + c1B.radius := by
    rw [hlen]; norm_num [c1A, c1B]
  have hnorm : (c1B.pos - c1A.pos).normalized = Vec2.mk 1 0 := by
    simp only [Vec2.normalized, hlen]
    norm_num [c1A, c1B]
  have h := c1_pairwise_resolution GameState.Simulating none 0 c1A c1B hov
  refine ⟨hov, ?_, ?_, ?_, ?_, ?_⟩
  · rw [hnorm]; norm_num [c1A, c1B]
  · rw [h.2.2.1, hnorm]
    norm_num [c1A, c1B, min_def]
  · rw [h.2.2.2, hnorm]
    norm_num [c1A, c1B, min_def]
  · rw [h.1, hnorm, hlen]
    norm_num [c1A, c1B]
  · rw [h.2.1, hnorm, hlen]
    norm_num [c1A, c1B]

/-! Claim C2: the Won transition of the pairwise resolver. -/

theorem fired_iff (o1 o2 : PhysicsObject) :
    (goalFired o1 o2 = true) ↔
    ((o1.is_goal = true ∧ o2.is_player = false ∧ o2.fixed = false) ∨
     (o2.is_goal = true ∧ o1.is_player = false ∧ o1.fixed = false)) := by
  simp [goalFired, Bool.or_eq_true, Bool.and_eq_true, Bool.not_eq_true']

theorem goalCheck_fst (st : GameState) (wt : Option ℝ) (now : ℝ) (f : Bool) :
    (goalCheck st wt now f).1 =
      if f = true ∧ st ≠ GameState.Won then GameState.Won else st := by
  by_cases hf : f = true <;> by_cases hst : st = GameState.Won <;>
    simp [goalCheck, hf, hst]

theorem goalCheck_snd (st : GameState) (wt : Option ℝ) (now : ℝ) (f : Bool) :
    (goalCheck st wt now f).2 =
      if f = true ∧ st ≠ GameState.Won then some now else wt := by
  by_cases hf : f = true <;> by_cases hst : st = GameState.Won <;>
    simp [goalCheck, hf, hst]

theorem collidePair_state (st : GameState) (wt : Option ℝ) (now : ℝ)
    (o1 o2 : PhysicsObject) :
    (collidePair st wt now o1 o2).2.2.1 =
      if (o2.pos - o1.pos).length < o1.radius + o2.radius ∧
         goalFired o1 o2 = true ∧ st ≠ GameState.Won
      then GameState.Won else st := by
  simp only [collidePair]
  by_cases hov : (o2.pos - o1.pos).length < o1.radius + o2.radius
  · rw [if_pos hov]
    show (goalCheck st wt now (goalFired o1 o2)).1 = _
    rw [goalCheck_fst]
    by_cases hF : goalFired o1 o2 = true
    · by_cases hst : st = GameState.Won
      · have h1 : ¬(goalFired o1 o2 = true ∧ st ≠ GameState.Won) := fun hc => hc.2 hst
        have h2 : ¬((o2.pos - o1.pos).length < o1.radius + o2.radius ∧
            goalFired o1 o2 = true ∧ st ≠ GameState.Won) := fun hc => hc.2.2 hst
        rw [if_neg h1, if_neg h2]
      · rw [if_pos ⟨hF, hst⟩, if_pos ⟨hov, hF, hst⟩]
    · have h1 : ¬(goalFired o1 o2 = true ∧ st ≠ GameState.Won) := fun hc => hF hc.1
      have h2 : ¬((o2.pos - o1.pos).length < o1.radius + o2.radius ∧
          goalFired o1 o2 = true ∧ st ≠ GameState.Won) := fun hc => hF hc.2.1
      rw [if_neg h1, if_neg h2]
  · rw [if_neg hov]
    have h2 : ¬((o2.pos - o1.pos).length < o1.radius + o2.radius ∧
        goalFired o1 o2 = true ∧ st ≠ GameState.Won) := fun hc => hov hc.1
    rw [if_neg h2]

theorem collidePair_wt (st : GameState) (wt : Option ℝ) (now : ℝ)
    (o1 o2 : PhysicsObject) :
    (collidePair st wt now o1 o2).2.2.2 =
      if (o2.pos - o1.pos).length < o1.radius + o2.radius ∧
         goalFired o1 o2 = true ∧ st ≠ GameState.Won
      then some now else wt := by
  simp only [collidePair]
  by_cases hov : (o2.pos - o1.pos).length < o1.radius + o2.radius
  · rw [if_pos hov]
    show (goalCheck st wt now (goalFired o1 o2)).2 = _
    rw [goalCheck_snd]
    by_cases hF : goalFired o1 o2 = true
    · by_cases hst : st = GameState.Won
      · have h1 : ¬(goalFired o1 o2 = true ∧ st ≠ GameState.Won) := fun hc => hc.2 hst
        have h2 : ¬((o2.pos - o1.pos).length < o1.radius + o2.radius ∧
            goalFired o1 o2 = true ∧ st ≠ GameState.Won) := fun hc => hc.2.2 hst
        rw [if_neg h1, if_neg h2]
      · rw [if_pos ⟨hF, hst⟩, if_pos ⟨hov, hF, hst⟩]
    · have h1 : ¬(goalFired o1 o2 = true ∧ st ≠ GameState.Won) := fun hc => hF hc.1
      have h2 : ¬((o2.pos - o1.pos).length < o1.radius + o2.radius ∧
          goalFired o1 o2 = true ∧ st ≠ GameState.Won) := fun hc => hF hc.2.1
      rw [if_neg h1, if_neg h2]
  · rw [if_neg hov]
    have h2 : ¬((o2.pos - o1.pos).length < o1.radius + o2.radius ∧
        goalFired o1 o2 = true ∧ st ≠ GameState.Won) := fun hc => hov hc.1
    rw [if_neg h2]

/-- Claim C2, amended: during a pairwise collision step the state
transitions to Won and records the win time exactly when the circles
overlap, at least one body of the pair is a goal body whose partner is
neither the player body nor fixed, and the state is not already Won;
when the state is already Won nothing changes (a second overlapping
frame does not re-trigger the win).  In particular a player body
touching a goal body (the player being no goal body itself) never
triggers the transition, while an intermediate non-player non-fixed
body does. -/
theorem c2_goal_transition (st : GameState) (wt : Option ℝ) (now : ℝ)
    (o1 o2 : PhysicsObject) :
    ((st ≠ GameState.Won →
      (((collidePair st wt now o1 o2).2.2.1 = GameState.Won) ↔
        ((o2.pos - o1.pos).length < o1.radius + o2.radius ∧
         ((o1.is_goal = true ∧ o2.is_player = false ∧ o2.fixed = false) ∨
          (o2.is_goal = true ∧ o1.is_player = false ∧ o1.fixed = false)))) ∧
      (((o2.pos - o1.pos).length < o1.radius + o2.radius ∧
        ((o1.is_goal = true ∧ o2.is_player = false ∧ o2.fixed = false) ∨
         (o2.is_goal = true ∧ o1.is_player = false ∧ o1.fixed = false))) →
        (collidePair st wt now o1 o2).2.2.2 = some now) ∧
      (¬((o2.pos - o1.pos).length < o1.radius + o2.radius ∧
         ((o1.is_goal = true ∧ o2.is_player = false ∧ o2.fixed = false) ∨
          (o2.is_goal = true ∧ o1.is_player = false ∧ o1.fixed = false))) →
        (collidePair st wt now o1 o2).2.2.1 = st ∧
        (collidePair st wt now o1 o2).2.2.2 = wt)) ∧
    (st = GameState.Won →
      (collidePair st wt now o1 o2).2.2.1 = GameState.Won ∧
      (collidePair st wt now o1 o2).2.2.2 = wt)) := by
  have hs := collidePair_state st wt now o1 o2
  have hw := collidePair_wt st wt now o1 o2
  constructor
  · intro hst
    refine ⟨?_, ?_, ?_⟩
    · rw [hs]
      by_cases hov : (o2.pos - o1.pos).length < o1.radius + o2.radius <;>
        by_cases hgp : ((o1.is_goal = true ∧ o2.is_player = false ∧ o2.fixed = false) ∨
          (o2.is_goal = true ∧ o1.is_player = false ∧ o1.fixed = false)) <;>
        simp [hov, hgp, hst, fired_iff]
    · intro hcond
      rw [hw, if_pos ⟨hcond.1, (fired_iff o1 o2).mpr hcond.2, hst⟩]
    · intro hcond
      constructor
      · rw [hs, if_neg]
        intro hc
        exact hcond ⟨hc.1, (fired_iff o1 o2).mp hc.2.1⟩
      · rw [hw, if_neg]
        intro hc
        exact hcond ⟨hc.1, (fired_iff o1 o2).mp hc.2.1⟩
  · intro hst
    subst hst
    constructor
    · rw [hs]; simp
    · rw [hw]; simp

/-- First of two overlapping goal bodies for the C2 counterexample. -/
noncomputable def c2GoalA : PhysicsObject :=
  { pos := ⟨0, 0⟩, vel := ⟨0, 0⟩, acc := ⟨0, 0⟩, radius := 1, mass := 1,
    bounciness := 1, is_goal := true, is_player := false, fixed := false,
    initial_pos := ⟨0, 0⟩, initial_vel := ⟨0, 0⟩ }

/-- Second of two overlapping goal bodies for the C2 counterexample. -/
noncomputable def c2GoalB : PhysicsObject :=
  { pos := ⟨1, 0⟩, vel := ⟨0, 0⟩, acc := ⟨0, 0⟩, radius := 1, mass := 1,
    bounciness := 1, is_goal := true, is_player := false, fixed := false,
    initial_pos := ⟨1, 0⟩, initial_vel := ⟨0, 0⟩ }

/-- Counterexample to C2 as stated: a pair in which BOTH bodies are goal
bodies (so that exactly one of the pair is a goal body is false), both
non-player and non-fixed, still transitions the state to Won on
overlap. -/
theorem c2_counterexample :
    c2GoalA.is_goal = true ∧ c2GoalB.is_goal = true ∧
    c2GoalA.is_player = false ∧ c2GoalB.is_player = false ∧
    c2GoalA.fixed = false ∧ c2GoalB.fixed = false ∧
    (c2GoalB.pos - c2GoalA.pos).length < c2GoalA.radius + c2GoalB.radius ∧
    (collidePair GameState.Simulating none 0 c2GoalA c2GoalB).2.2.1 = GameState.Won := by
  have hov : (c2GoalB.pos - c2GoalA.pos).length < c2GoalA.radius + c2GoalB.radius := by
    simp only [c2GoalA, c2GoalB, Vec2.sub_def, Vec2.length]
    norm_num [Real.sqrt_one]
  refine ⟨rfl, rfl, rfl, rfl, rfl, rfl, hov, ?_⟩
  rw [collidePair_state, if_pos]
  exact ⟨hov, (fired_iff _ _).mpr (Or.inl ⟨rfl, rfl, rfl⟩), by decide⟩

/-- Goal body for the C2 witness. -/
noncomputable def c2WGoal : PhysicsObject :=
  { pos := ⟨0, 0⟩, vel := ⟨0, 0⟩, acc := ⟨0, 0⟩, radius := 1, mass := 1,
    bounciness := 1, is_goal := true, is_player := false, fixed := false,
    initial_pos := ⟨0, 0⟩, initial_vel := ⟨0, 0⟩ }

/-- Intermediate (non-player, non-fixed, non-goal) body for the C2
witness. -/
noncomputable def c2WInter : PhysicsObject :=
  { pos := ⟨1, 0⟩, vel := ⟨0, 0⟩, acc := ⟨0, 0⟩, radius := 1, mass := 1,
    bounciness := 1, is_goal := false, is_player := false, fixed := false,
    initial_pos := ⟨1, 0⟩, initial_vel := ⟨0, 0⟩ }

/-- Witness for C2: an intermediate body overlapping the goal body in a
simulating state transitions to Won and records the time. -/
theorem c2_witness :
    (collidePair GameState.Simulating none 5 c2WGoal c2WInter).2.2.1 = GameState.Won ∧
    (collidePair GameState.Simulating none 5 c2WGoal c2WInter).2.2.2 = some 5 := by
  have h := c2_goal_transition GameState.Simulating none 5 c2WGoal c2WInter
  have hov : (c2WInter.pos - c2WGoal.pos).length < c2WGoal.radius + c2WInter.radius := by
    simp only [c2WGoal, c2WInter, Vec2.sub_def, Vec2.length]
    norm_num [Real.sqrt_one]
  have hcond : (c2WInter.pos - c2WGoal.pos).length < c2WGoal.radius + c2WInter.radius ∧
      ((c2WGoal.is_goal = true ∧ c2WInter.is_player = false ∧ c2WInter.fixed = false) ∨
       (c2WInter.is_goal = true ∧ c2WGoal.is_player = false ∧ c2WGoal.fixed = false)) :=
    ⟨hov, Or.inl ⟨rfl, rfl, rfl⟩⟩
  exact ⟨(h.1 (by decide)).1.mpr hcond, (h.1 (by decide)).2.1 hcond⟩

/-! Claim C7: reset restores initial state. -/

/-- Claim C7: from any state, reset restores every body to its recorded
initial position and velocity with zeroed acceleration, returns the
state machine to Planning (clearing the win time), and leaves the walls
and springs collections unchanged. -/
theorem c7_reset_restores (app : PhysicsApp) :
    (reset_simulation app).objects = app.objects.map
      (fun o => { o with pos := o.initial_pos, vel := o.initial_vel, acc := Vec2.mk 0 0 }) ∧
    (reset_simulation app).game_state = GameState.Planning ∧
    (reset_simulation app).win_time = none ∧
    (reset_simulation app).walls = app.walls ∧
    (reset_simulation app).springs = app.springs :=
  ⟨rfl, rfl, rfl, rfl, rfl⟩

/-! Claim C9: comparison of the two engine variants. -/

/-- Claim C9, amended: the two variants do NOT differ on a
collision-skip policy; on bodies without role flags the sandbox
resolver of old.rs computes exactly the same positions and velocities
as the puzzle resolver of main.rs, for every input, separating or
not. -/
theorem c9_variants_agree (st : GameState) (wt : Option ℝ) (now : ℝ)
    (a b : OldObject) :
    (collidePair st wt now (toNew a) (toNew b)).1.pos = (old_collide_pair a b).1.pos ∧
    (collidePair st wt now (toNew a) (toNew b)).1.vel = (old_collide_pair a b).1.vel ∧
    (collidePair st wt now (toNew a) (toNew b)).2.1.pos = (old_collide_pair a b).2.pos ∧
    (collidePair st wt now (toNew a) (toNew b)).2.1.vel = (old_collide_pair a b).2.vel := by
  simp only [collidePair, old_collide_pair, toNew]
  by_cases h : (b.pos - a.pos).length < a.radius + b.radius
  · rw [if_pos h, if_pos h]
    exact ⟨by simp, by simp, by simp, by simp⟩
  · rw [if_neg h, if_neg h]
    exact ⟨rfl, rfl, rfl, rfl⟩

/-- Separating pair (relative normal velocity positive) for the C9
counterexample. -/
noncomputable def c9SepA : OldObject :=
  { pos := ⟨0, 0⟩, vel := ⟨-1, 0⟩, acc := ⟨0, 0⟩, radius := 2, mass := 1, bounciness := 1 }

/-- Separating pair (relative normal velocity positive) for the C9
counterexample. -/
noncomputable def c9SepB : OldObject :=
  { pos := ⟨3, 0⟩, vel := ⟨1, 0⟩, acc := ⟨0, 0⟩, radius := 2, mass := 1, bounciness := 1 }

/-- Approaching pair (relative normal velocity negative) for the C9
counterexample. -/
noncomputable def c9AppC : OldObject :=
  { pos := ⟨0, 0⟩, vel := ⟨1, 0⟩, acc := ⟨0, 0⟩, radius := 2, mass := 1, bounciness := 1 }

/-- Approaching pair (relative normal velocity negative) for the C9
counterexample. -/
noncomputable def c9AppD : OldObject :=
  { pos := ⟨3, 0⟩, vel := ⟨-1, 0⟩, acc := ⟨0, 0⟩, radius := 2, mass := 1, bounciness := 1 }

/-- Counterexample to C9 as stated: the sandbox variant of old.rs does
not skip already-separating overlapping pairs.  An overlapping pair
whose relative velocity along the normal is positive (geometrically
separating) still receives an impulse (the first body's horizontal
velocity changes from -1 to 1), and so does a pair whose relative
normal velocity is negative, so under either sign convention there is
no skip. -/
theorem c9_counterexample :
    ((c9SepB.vel - c9SepA.vel).dot ((c9SepB.pos - c9SepA.pos).normalized) > 0 ∧
     (c9SepB.pos - c9SepA.pos).length < c9SepA.radius + c9SepB.radius ∧
     c9SepA.vel.x = -1 ∧
     (old_collide_pair c9SepA c9SepB).1.vel.x = 1) ∧
    ((c9AppD.vel - c9AppC.vel).dot ((c9AppD.pos - c9AppC.pos).normalized) < 0 ∧
     (c9AppD.pos - c9AppC.pos).length < c9AppC.radius + c9AppD.radius ∧
     c9AppC.vel.x = 1 ∧
     (old_collide_pair c9AppC c9AppD).1.vel.x = -1) := by
  have hlen1 : (c9SepB.pos - c9SepA.pos).length = 3 := by
    simp only [c9SepA, c9SepB, Vec2.sub_def, Vec2.length]
    norm_num
    exact sqrt_eval 9 3 (by norm_num) (by norm_num)
  have hnorm1 : (c9SepB.pos - c9SepA.pos).normalized = Vec2.mk 1 0 := by
    simp only [Vec2.normalized, hlen1]
    norm_num [c9SepA, c9SepB]
  have hlen2 : (c9AppD.pos - c9AppC.pos).length = 3 := by
    simp only [c9AppC, c9AppD, Vec2.sub_def, Vec2.length]
    norm_num
    exact sqrt_eval 9 3 (by norm_num) (by norm_num)
  have hnorm2 : (c9AppD.pos - c9AppC.pos).normalized = Vec2.mk 1 0 := by
    simp only [Vec2.normalized, hlen2]
    norm_num [c9AppC, c9AppD]
  constructor
  · refine ⟨by rw [hnorm1]; norm_num [c9SepA, c9SepB], ?_, rfl, ?_⟩
    · rw [hlen1]; norm_num [c9SepA, c9SepB]
    · simp only [old_collide_pair]
      rw [if_pos (by rw [hlen1]; norm_num [c9SepA, c9SepB])]
      rw [hnorm1]
      norm_num [c9SepA, c9SepB, min_def]
  · refine ⟨by rw [hnorm2]; norm_num [c9AppC, c9AppD], ?_, rfl, ?_⟩
    · rw [hlen2]; norm_num [c9AppC, c9AppD]
    · simp only [old_collide_pair]
      rw [if_pos (by rw [hlen2]; norm_num [c9AppC, c9AppD])]
      rw [hnorm2]
      norm_num [c9AppC, c9AppD, min_def]

/-! Claim C5: spring pass and integration order. -/

/-- Claim C5: the spring forces of a step are a function of the
prior-step body positions only (the argument of sumForcesFor and
springForce is the unmodified object list), and the subsequent
integration maps every non-fixed body to the semi-implicit Euler
update (gravity accumulated into acceleration, velocity integrated,
acceleration reset to zero, position integrated with the new
velocity); fixed bodies are untouched by both passes. -/
theorem c5_spring_then_integrate (app : PhysicsApp) (dt : ℝ) (k : ℕ)
    (o : PhysicsObject) (h : app.objects.get? k = some o) :
    (integratePhase dt (springPhase app)).objects.get? k =
      some (if o.fixed then o
        else
          { o with
            acc := Vec2.mk 0 0,
            vel := o.vel + (o.acc + (sumForcesFor k (app.springs.filterMap
              (springForce app.objects))).mul (1 / o.mass) + app.gravity).mul dt,
            pos := o.pos + (o.vel + (o.acc + (sumForcesFor k (app.springs.filterMap
              (springForce app.objects))).mul (1 / o.mass) + app.gravity).mul dt).mul dt }) := by
  have h1 := applySpringForces_get? (app.springs.filterMap (springForce app.objects))
    app.objects k o h
  show ((springPhase app).objects.map (integrateObj app.gravity dt)).get? k = _
  rw [show ((springPhase app).objects.map (integrateObj app.gravity dt)).get? k
      = ((springPhase app).objects.get? k).map (integrateObj app.gravity dt) from
      List.get?_map _ _ _]
  rw [show (springPhase app).objects
      = applySpringForces app.objects (app.springs.filterMap (springForce app.objects))
      from rfl]
  rw [h1]
  cases hf : o.fixed
  · simp [integrateObj, hf]
  · simp [integrateObj, hf]

/-- Body for the C5 witness. -/
noncomputable def c5Obj : PhysicsObject :=
  { pos := ⟨0, 0⟩, vel := ⟨0, 0⟩, acc := ⟨0, 0⟩, radius := 1, mass := 2,
    bounciness := 1, is_goal := false, is_player := false, fixed := false,
    initial_pos := ⟨0, 0⟩, initial_vel := ⟨0, 0⟩ }

/-- Spring for the C5 witness: anchored above the body. -/
noncomputable def c5Spring : Spring :=
  { object_index := 0, anchor := none, anchor_pos := ⟨0, 5⟩, rest_length := 1,
    stiffness := 2 }

/-- App for the C5 witness. -/
noncomputable def c5App : PhysicsApp :=
  { objects := [c5Obj], walls := [], springs := [c5Spring], gravity := ⟨0, 1⟩,
    bounds := (800, 600), game_state := GameState.Simulating, win_time := none }

/-- Witness for C5: with a single spring of force (0, 8) on a body of
mass 2 under gravity (0, 1) and dt = 1, the spring-then-integrate pass
produces velocity (0, 5) and position (0, 5). -/
theorem c5_witness :
    (integratePhase 1 (springPhase c5App)).objects.get? 0 =
      some { c5Obj with acc := Vec2.mk 0 0, vel := Vec2.mk 0 5, pos := Vec2.mk 0 5 } := by
  have hsf : springForce [c5Obj] c5Spring = some (0, Vec2.mk 0 8) := by
    have hsq : Real.sqrt 25 = 5 := sqrt_eval 25 5 (by norm_num) (by norm_num)
    simp only [springForce, anchorPosOf, c5Spring, c5Obj]
    norm_num [Vec2.length, hsq]
  have hforce : c5App.springs.filterMap (springForce c5App.objects) = [(0, Vec2.mk 0 8)] := by
    show List.filterMap (springForce [c5Obj]) [c5Spring] = _
    simp [List.filterMap_cons, hsf]
  have h := c5_spring_then_integrate c5App 1 0 c5Obj rfl
  rw [hforce] at h
  rw [h]
  norm_num [c5Obj, c5App, sumForcesFor]

/-! Claim C6: the wall collision resolver. -/

/-- Claim C6: for one body against one wall, the resolver acts exactly
when the projection lies within the segment span and the perpendicular
distance is at most the radius; it then pushes the body out along the
wall normal by the penetration depth signed by the Rust signum of the
distance, and reflects the normal velocity component if and only if it
opposes the penetration direction; otherwise the body is unchanged. -/
theorem c6_wall_resolution (w : Wall) (obj : PhysicsObject) :
    ((0 ≤ alongWall w obj ∧ alongWall w obj ≤ wallLen w) →
      |wallDist w obj| ≤ obj.radius →
      wallStepOne w obj = { obj with
        pos := obj.pos + (wallNormal w).mul
          ((obj.radius - |wallDist w obj|) * signum (wallDist w obj)),
        vel := if (obj.vel.dot (wallNormal w)) * wallDist w obj < 0
          then obj.vel - (wallNormal w).mul
            ((obj.vel.dot (wallNormal w)) * (1 + obj.bounciness))
          else obj.vel }) ∧
    (¬(0 ≤ alongWall w obj ∧ alongWall w obj ≤ wallLen w) →
      wallStepOne w obj = obj) ∧
    (obj.radius < |wallDist w obj| → wallStepOne w obj = obj) := by
  refine ⟨?_, ?_, ?_⟩
  · intro h1 h2
    unfold wallStepOne
    rw [if_pos h1, if_pos h2]
    dsimp only
    by_cases h3 : (obj.vel.dot (wallNormal w)) * wallDist w obj < 0
    · rw [if_pos h3, if_pos h3]
    · rw [if_neg h3, if_neg h3]
  · intro h1
    unfold wallStepOne
    rw [if_neg h1]
  · intro h2
    unfold wallStepOne
    by_cases h1 : 0 ≤ alongWall w obj ∧ alongWall w obj ≤ wallLen w
    · rw [if_pos h1, if_neg (not_le.mpr h2)]
    · rw [if_neg h1]

/-- Horizontal wall for the C6 witness. -/
noncomputable def c6Wall : Wall :=
  { start := ⟨0, 0⟩, endp := ⟨10, 0⟩, is_user_placed := false }

/-- Penetrating body for the C6 witness. -/
noncomputable def c6Obj : PhysicsObject :=
  { pos := ⟨5, 1⟩, vel := ⟨0, -3⟩, acc := ⟨0, 0⟩, radius := 2, mass := 1,
    bounciness := 1 / 2, is_goal := false, is_player := false, fixed := false,
    initial_pos := ⟨5, 1⟩, initial_vel := ⟨0, -3⟩ }

/-- Witness for C6: a body one unit above a horizontal wall of length
10, with downward velocity, is pushed out to distance equal to its
radius and has its normal velocity reflected with restitution. -/
theorem c6_witness :
    (0 ≤ alongWall c6Wall c6Obj ∧ alongWall c6Wall c6Obj ≤ wallLen c6Wall) ∧
    |wallDist c6Wall c6Obj| ≤ c6Obj.radius ∧
    wallStepOne c6Wall c6Obj = { c6Obj with pos := Vec2.mk 5 2, vel := Vec2.mk 0 (3 / 2) } := by
  have hlen : wallLen c6Wall = 10 := by
    simp only [wallLen, c6Wall, Vec2.sub_def, Vec2.length]
    norm_num
    exact sqrt_eval 100 10 (by norm_num) (by norm_num)
  have hdir : wallDir c6Wall = Vec2.mk 1 0 := by
    rw [wallDir, hlen]
    simp only [c6Wall]
    norm_num
  have hn : wallNormal c6Wall = Vec2.mk 0 1 := by
    simp only [wallNormal, hdir]
    norm_num
  have ha : alongWall c6Wall c6Obj = 5 := by
    rw [alongWall, hdir]
    simp only [c6Wall, c6Obj]
    norm_num
  have hd : wallDist c6Wall c6Obj = 1 := by
    rw [wallDist, hn]
    simp only [c6Wall, c6Obj]
    norm_num
  have hcond : 0 ≤ alongWall c6Wall c6Obj ∧ alongWall c6Wall c6Obj ≤ wallLen c6Wall := by
    rw [ha, hlen]; norm_num
  have hpen : |wallDist c6Wall c6Obj| ≤ c6Obj.radius := by
    rw [hd]; norm_num [c6Obj]
  refine ⟨hcond, hpen, ?_⟩
  rw [(c6_wall_resolution c6Wall c6Obj).1 hcond hpen, hn, hd]
  norm_num [c6Obj, signum]

/-! Claim C8: fallible spring lookups and the force formula. -/

/-- Claim C8, amended: a spring whose body index or anchor body index is
stale, or whose anchor distance is exactly zero, contributes no force
for the step (the lookup degrades to no effect); otherwise the first
pass computes the force direction_to_anchor * (distance - restLength) *
stiffness for the body at object_index, and the application pass adds
that force scaled by the inverse mass to the acceleration of exactly
that body, provided the body is not fixed (a fixed target body is left
untouched). -/
theorem c8_spring_error_handling (objects : List PhysicsObject) (s : Spring) :
    (objects.get? s.object_index = none → springForce objects s = none) ∧
    (∀ ai, s.anchor = some ai → objects.get? ai = none → springForce objects s = none) ∧
    (∀ obj ap, objects.get? s.object_index = some obj → anchorPosOf objects s = some ap →
      (ap - obj.pos).length = 0 → springForce objects s = none) ∧
    (∀ obj ap, objects.get? s.object_index = some obj → anchorPosOf objects s = some ap →
      (ap - obj.pos).length ≠ 0 →
      springForce objects s = some (s.object_index,
        ((ap - obj.pos).mul (1 / (ap - obj.pos).length)).mul
          (((ap - obj.pos).length - s.rest_length) * s.stiffness))) ∧
    (springForce objects s = none →
      applySpringForces objects (List.filterMap (springForce objects) [s]) = objects) ∧
    (∀ i F k o, springForce objects s = some (i, F) → objects.get? k = some o →
      (applySpringForces objects (List.filterMap (springForce objects) [s])).get? k =
        some (if k = i ∧ o.fixed = false
              then { o with acc := o.acc + F.mul (1 / o.mass) } else o)) := by
  refine ⟨?_, ?_, ?_, ?_, ?_, ?_⟩
  · intro h
    unfold springForce
    rw [h]
  · intro ai hai hnone
    unfold springForce
    cases hobj : objects.get? s.object_index with
    | none => rfl
    | some obj =>
        have hap : anchorPosOf objects s = none := by
          unfold anchorPosOf
          rw [hai]
          show (objects.get? ai).map (fun a => a.pos) = none
          rw [hnone]
          rfl
        rw [hap]
  · intro obj ap hobj hap h0
    unfold springForce
    rw [hobj, hap]
    show (if (ap - obj.pos).length = 0 then none else _) = none
    rw [if_pos h0]
  · intro obj ap hobj hap h0
    unfold springForce
    rw [hobj, hap]
    show (if (ap - obj.pos).length = 0 then none else _) = _
    rw [if_neg h0]
  · intro hnone
    have hfm : List.filterMap (springForce objects) [s] = [] := by
      simp [List.filterMap_cons, hnone]
    rw [hfm]
    rfl
  · intro i F k o hsome hk
    have hfm : List.filterMap (springForce objects) [s] = [(i, F)] := by
      simp [List.filterMap_cons, hsome]
    rw [hfm]
    rw [show applySpringForces objects [(i, F)]
        = listUpdate objects i (springApplyOne (i, F)) from rfl]
    by_cases hki : k = i
    · subst hki
      rw [get?_listUpdate_self, hk]
      cases hf : o.fixed
      · simp [springApplyOne, hf]
      · simp [springApplyOne, hf]
    · rw [get?_listUpdate_ne _ _ _ _ (fun he => hki he.symm), hk]
      simp [hki]

/-- Fixed body targeted by a spring, for the C8 counterexample. -/
noncomputable def c8FixedObj : PhysicsObject :=
  { pos := ⟨0, 0⟩, vel := ⟨0, 0⟩, acc := ⟨0, 0⟩, radius := 1, mass := 2,
    bounciness := 1, is_goal := false, is_player := false, fixed := true,
    initial_pos := ⟨0, 0⟩, initial_vel := ⟨0, 0⟩ }

/-- Spring with a live target and nonzero stretch, for the C8
counterexample. -/
noncomputable def c8Spring : Spring :=
  { object_index := 0, anchor := none, anchor_pos := ⟨0, 5⟩, rest_length := 1,
    stiffness := 2 }

/-- Counterexample to C8 as stated: the lookups all succeed and the
anchor distance is 5, so the first pass computes the nonzero force
(0, 8); but because the target body is fixed, the application pass
leaves it (in particular its acceleration) unchanged, contradicting
the claim that the force scaled by the inverse mass is applied to the
body at object_index. -/
theorem c8_counterexample :
    springForce [c8FixedObj] c8Spring = some (0, Vec2.mk 0 8) ∧
    (Vec2.mk 0 8).mul (1 / c8FixedObj.mass) ≠ Vec2.mk 0 0 ∧
    applySpringForces [c8FixedObj]
      (List.filterMap (springForce [c8FixedObj]) [c8Spring]) = [c8FixedObj] ∧
    c8FixedObj.acc = Vec2.mk 0 0 := by
  have hsq : Real.sqrt 25 = 5 := sqrt_eval 25 5 (by norm_num) (by norm_num)
  have hsf : springForce [c8FixedObj] c8Spring = some (0, Vec2.mk 0 8) := by
    simp only [springForce, anchorPosOf, c8Spring, c8FixedObj]
    norm_num [Vec2.length, hsq]
  refine ⟨hsf, ?_, ?_, rfl⟩
  · simp [c8FixedObj]
  · have hfm : List.filterMap (springForce [c8FixedObj]) [c8Spring] = [(0, Vec2.mk 0 8)] := by
      simp [List.filterMap_cons, hsf]
    rw [hfm]
    rw [show applySpringForces [c8FixedObj] [(0, Vec2.mk 0 8)]
        = listUpdate [c8FixedObj] 0 (springApplyOne (0, Vec2.mk 0 8)) from rfl]
    simp [listUpdate, springApplyOne, c8FixedObj]

/-- Live non-fixed body for the C8 witness. -/
noncomputable def c8FreeObj : PhysicsObject :=
  { pos := ⟨0, 0⟩, vel := ⟨0, 0⟩, acc := ⟨0, 0⟩, radius := 1, mass := 2,
    bounciness := 1, is_goal := false, is_player := false, fixed := false,
    initial_pos := ⟨0, 0⟩, initial_vel := ⟨0, 0⟩ }

/-- Stale spring (index past the end of the body list) for the C8
witness. -/
noncomputable def c8StaleSpring : Spring :=
  { object_index := 7, anchor := none, anchor_pos := ⟨0, 5⟩, rest_length := 1,
    stiffness := 2 }

/-- Witness for C8: a stale body index yields no force and the
application pass leaves the body list unchanged, and on a live
non-fixed target the computed force is applied to its acceleration. -/
theorem c8_witness :
    springForce [c8FreeObj] c8StaleSpring = none ∧
    applySpringForces [c8FreeObj]
      (List.filterMap (springForce [c8FreeObj]) [c8StaleSpring]) = [c8FreeObj] ∧
    springForce [c8FreeObj] c8Spring = some (0, Vec2.mk 0 8) ∧
    (applySpringForces [c8FreeObj]
      (List.filterMap (springForce [c8FreeObj]) [c8Spring])).get? 0 =
      some { c8FreeObj with acc := c8FreeObj.acc + (Vec2.mk 0 8).mul (1 / c8FreeObj.mass) } := by
  have h := c8_spring_error_handling [c8FreeObj] c8StaleSpring
  have hstale : ([c8FreeObj] : List PhysicsObject).get? 7 = none := rfl
  have h1 := h.1 hstale
  have h2 := (h.2.2.2.2.1) h1
  have hsq : Real.sqrt 25 = 5 := sqrt_eval 25 5 (by norm_num) (by norm_num)
  have hap : anchorPosOf [c8FreeObj] c8Spring = some (Vec2.mk 0 5) := rfl
  have hlen : ((Vec2.mk 0 5 : Vec2) - c8FreeObj.pos).length = 5 := by
    simp only [c8FreeObj, Vec2.sub_def, Vec2.length]
    norm_num [hsq]
  have h3 := (c8_spring_error_handling [c8FreeObj] c8Spring).2.2.2.1 c8FreeObj
    (Vec2.mk 0 5) rfl hap (by rw [hlen]; norm_num)
  have hforce : (((Vec2.mk 0 5 : Vec2) - c8FreeObj.pos).mul
      (1 / ((Vec2.mk 0 5 : Vec2) - c8FreeObj.pos).length)).mul
      ((((Vec2.mk 0 5 : Vec2) - c8FreeObj.pos).length - c8Spring.rest_length) *
        c8Spring.stiffness) = Vec2.mk 0 8 := by
    rw [hlen]
    norm_num [c8FreeObj, c8Spring]
  rw [hforce] at h3
  have h4 := (c8_spring_error_handling [c8FreeObj] c8Spring).2.2.2.2.2 0 (Vec2.mk 0 8)
    0 c8FreeObj h3 rfl
  refine ⟨h1, h2, h3, ?_⟩
  rw [h4]
  simp [c8FreeObj]

/-! Claim C4: boundary containment. -/

/-- Claim C4, amended: containment holds immediately after the
boundary-resolution stage: every non-fixed body whose diameter fits the
arena is clamped into the margin-shifted x range and the y range of the
claim.  The full update step does NOT guarantee this, because the
pairwise and wall stages run after the boundary stage (see the
counterexample). -/
theorem c4_boundary_containment (bounds : ℝ × ℝ) (o : PhysicsObject)
    (hnf : o.fixed = false) (hw : 2 * o.radius ≤ bounds.1) (hh : 2 * o.radius ≤ bounds.2) :
    boarder_start + o.radius ≤ (boundaryObj bounds o).pos.x ∧
    (boundaryObj bounds o).pos.x ≤ boarder_start + bounds.1 - o.radius ∧
    o.radius ≤ (boundaryObj bounds o).pos.y ∧
    (boundaryObj bounds o).pos.y ≤ bounds.2 - o.radius := by
  unfold boundaryObj
  rw [if_neg (by rw [hnf]; exact Bool.false_ne_true)]
  simp only [boarder_start] at *
  split_ifs with h1 h2 h3 h4 h5 h6 h7 h8 h9 <;>
    refine ⟨?_, ?_, ?_, ?_⟩ <;> (try dsimp only) <;> linarith

/-- Non-fixed body for the C4 witness. -/
noncomputable def c4WObj : PhysicsObject :=
  { pos := ⟨100, 700⟩, vel := ⟨-30, 40⟩, acc := ⟨0, 0⟩, radius := 10, mass := 1,
    bounciness := 1 / 2, is_goal := false, is_player := false, fixed := false,
    initial_pos := ⟨100, 700⟩, initial_vel := ⟨-30, 40⟩ }

/-- Witness for C4 (amended) on a body that starts outside the arena on
both axes. -/
theorem c4_witness :
    boarder_start + c4WObj.radius ≤ (boundaryObj (800, 600) c4WObj).pos.x ∧
    (boundaryObj (800, 600) c4WObj).pos.x ≤ boarder_start + (800 : ℝ) - c4WObj.radius ∧
    c4WObj.radius ≤ (boundaryObj (800, 600) c4WObj).pos.y ∧
    (boundaryObj (800, 600) c4WObj).pos.y ≤ (600 : ℝ) - c4WObj.radius :=
  c4_boundary_containment (800, 600) c4WObj rfl (by norm_num [c4WObj]) (by norm_num [c4WObj])

/-- Fixed blocker next to the right margin for the C4 counterexample. -/
noncomputable def c4Body0 : PhysicsObject :=
  { pos := ⟨990, 300⟩, vel := ⟨0, 0⟩, acc := ⟨0, 0⟩, radius := 10, mass := 1,
    bounciness := 0, is_goal := false, is_player := false, fixed := true,
    initial_pos := ⟨990, 300⟩, initial_vel := ⟨0, 0⟩ }

/-- Non-fixed body overlapping the blocker, in bounds, for the C4
counterexample. -/
noncomputable def c4Body1 : PhysicsObject :=
  { pos := ⟨998, 300⟩, vel := ⟨0, 0⟩, acc := ⟨0, 0⟩, radius := 10, mass := 1,
    bounciness := 0, is_goal := false, is_player := false, fixed := false,
    initial_pos := ⟨998, 300⟩, initial_vel := ⟨0, 0⟩ }

/-- Gravity-free app for the C4 counterexample. -/
noncomputable def c4App : PhysicsApp :=
  { objects := [c4Body0, c4Body1], walls := [], springs := [], gravity := ⟨0, 0⟩,
    bounds := (800, 600), game_state := GameState.Simulating, win_time := none }

/-- The C4 pair after the pairwise stage: the overlap with the fixed
blocker pushed the free body past the right containment bound. -/
noncomputable def c4After : PhysicsApp :=
  { objects := [c4Body0, { c4Body1 with pos := ⟨1001, 300⟩ }], walls := [], springs := [],
    gravity := ⟨0, 0⟩, bounds := (800, 600), game_state := GameState.Simulating,
    win_time := none }

/-- Counterexample to C4 as stated: the free body starts inside the
containment range (x between 220 and 1000 for radius 10 and the
800-wide, 210-margined arena), but one full update step ends with its
center at x = 1001 > 1000, its circle sticking out of the arena: the
pairwise stage runs after the boundary stage and pushes it out. -/
theorem c4_counterexample :
    c4Body1.fixed = false ∧
    boarder_start + c4App.bounds.1 - c4Body1.radius = 1000 ∧
    boarder_start + c4Body1.radius ≤ c4Body1.pos.x ∧
    c4Body1.pos.x ≤ boarder_start + c4App.bounds.1 - c4Body1.radius ∧
    ((update_physics c4App (1 / 100) 0).objects.get? 1).map (fun b => b.pos.x) =
      some 1001 ∧
    (1000 : ℝ) < 1001 := by
  have hB : boarder_start + c4App.bounds.1 - c4Body1.radius = 1000 := by
    norm_num [boarder_start, c4App, c4Body1]
  have hlen : (c4Body1.pos - c4Body0.pos).length = 8 := by
    simp only [c4Body0, c4Body1, Vec2.sub_def, Vec2.length]
    norm_num
    exact sqrt_eval 64 8 (by norm_num) (by norm_num)
  have hnorm : (c4Body1.pos - c4Body0.pos).normalized = Vec2.mk 1 0 := by
    simp only [Vec2.normalized, hlen]
    norm_num [c4Body0, c4Body1]
  have hcp : collidePair GameState.Simulating none 0 c4Body0 c4Body1 =
      (c4Body0, { c4Body1 with pos := ⟨1001, 300⟩ }, GameState.Simulating, none) := by
    simp only [collidePair]
    rw [if_pos (by rw [hlen]; norm_num [c4Body0, c4Body1])]
    rw [hnorm, hlen]
    norm_num [c4Body0, c4Body1, goalFired, goalCheck, min_def]
  have h2 : integratePhase (1 / 100) c4App = c4App := by
    simp only [integratePhase, c4App, integrateObj, c4Body0, c4Body1, List.map]
    norm_num
  have h3 : boundaryPhase c4App = c4App := by
    simp only [boundaryPhase, c4App, boundaryObj, c4Body0, c4Body1, List.map, boarder_start]
    norm_num
  have h4 : pairwisePhase 0 c4App = c4After := by
    rw [show pairwisePhase 0 c4App = collideAt 0 c4App 0 1 from rfl]
    rw [show collideAt 0 c4App 0 1 = { c4App with
        objects := listSet (listSet c4App.objects 0
          (collidePair GameState.Simulating none 0 c4Body0 c4Body1).1) 1
          (collidePair GameState.Simulating none 0 c4Body0 c4Body1).2.1,
        game_state := (collidePair GameState.Simulating none 0 c4Body0 c4Body1).2.2.1,
        win_time := (collidePair GameState.Simulating none 0 c4Body0 c4Body1).2.2.2 }
      from rfl]
    rw [hcp]
    simp [c4App, c4After, listSet]
  have h5 : wallPhase c4After = c4After := rfl
  have hupd : update_physics c4App (1 / 100) 0 = c4After := by
    rw [show update_physics c4App (1 / 100) 0
        = wallPhase (pairwisePhase 0 (boundaryPhase (integratePhase (1 / 100)
          (springPhase c4App)))) from rfl]
    rw [show springPhase c4App = c4App from rfl, h2, h3, h4, h5]
  refine ⟨rfl, hB, ?_, ?_, ?_, by norm_num⟩
  · norm_num [boarder_start, c4Body1]
  · rw [hB]; norm_num [c4Body1]
  · rw [hupd]
    rfl

/-! Claim C10: the elastic equal-mass transfer scenario. -/

theorem collidePair_vel_fst (st : GameState) (wt : Option ℝ) (now : ℝ)
    (o1 o2 : PhysicsObject)
    (h : (o2.pos - o1.pos).length < o1.radius + o2.radius) (hf : o1.fixed = false) :
    (collidePair st wt now o1 o2).1.vel =
      o1.vel - ((o2.pos - o1.pos).normalized.mul
        ((-(1 + min o1.bounciness o2.bounciness) *
          ((o2.vel - o1.vel).dot (o2.pos - o1.pos).normalized)) /
         (1 / o1.mass + 1 / o2.mass))).mul (1 / o1.mass) := by
  simp only [collidePair]
  rw [if_pos h]
  cases hf2 : o2.fixed <;> simp [hf, hf2]

theorem collidePair_vel_snd (st : GameState) (wt : Option ℝ) (now : ℝ)
    (o1 o2 : PhysicsObject)
    (h : (o2.pos - o1.pos).length < o1.radius + o2.radius) (hf : o2.fixed = false) :
    (collidePair st wt now o1 o2).2.1.vel =
      o2.vel + ((o2.pos - o1.pos).normalized.mul
        ((-(1 + min o1.bounciness o2.bounciness) *
          ((o2.vel - o1.vel).dot (o2.pos - o1.pos).normalized)) /
         (1 / o1.mass + 1 / o2.mass))).mul (1 / o2.mass) := by
  simp only [collidePair]
  rw [if_pos h]
  cases hf1 : o1.fixed <;> simp [hf, hf1]

/-- Moving body A of the spec scenario, at horizontal position x. -/
noncomputable def c10A (x : ℝ) : PhysicsObject :=
  { pos := ⟨x, 300⟩, vel := ⟨400, 0⟩, acc := ⟨0, 0⟩, radius := 20, mass := 1,
    bounciness := 1, is_goal := false, is_player := false, fixed := false,
    initial_pos := ⟨100, 300⟩, initial_vel := ⟨400, 0⟩ }

/-- Resting body B of the spec scenario. -/
noncomputable def c10B : PhysicsObject :=
  { pos := ⟨300, 300⟩, vel := ⟨0, 0⟩, acc := ⟨0, 0⟩, radius := 20, mass := 1,
    bounciness := 1, is_goal := false, is_player := false, fixed := false,
    initial_pos := ⟨300, 300⟩, initial_vel := ⟨0, 0⟩ }

/-- Two-body app of the spec scenario with A at horizontal position x
(gravity-free, wall-free, with bounds far away). -/
noncomputable def c10App (x : ℝ) : PhysicsApp :=
  { objects := [c10A x, c10B], walls := [], springs := [], gravity := ⟨0, 0⟩,
    bounds := (100000, 100000), game_state := GameState.Simulating, win_time := none }

/-- Counterexample to C10 as stated: after advancing A exactly until its
right edge reaches B's left edge (A at x = 260, center distance 40 =
sum of radii), the strict overlap test dist < minDist fails, so the
collision step changes nothing: A keeps horizontal velocity 400
(instead of the claimed 0) and B keeps 0 (instead of the claimed
400). -/
theorem c10_counterexample :
    (c10A 260).pos.x + (c10A 260).radius = c10B.pos.x - c10B.radius ∧
    ((pairwisePhase 0 (c10App 260)).objects.get? 0).map (fun b => b.vel.x) = some 400 ∧
    ((pairwisePhase 0 (c10App 260)).objects.get? 1).map (fun b => b.vel.x) = some 0 ∧
    (400 : ℝ) ≠ 0 := by
  have hlen : (c10B.pos - (c10A 260).pos).length = 40 := by
    simp only [c10A, c10B, Vec2.sub_def, Vec2.length]
    norm_num
    exact sqrt_eval 1600 40 (by norm_num) (by norm_num)
  have hcp : collidePair GameState.Simulating none 0 (c10A 260) c10B =
      (c10A 260, c10B, GameState.Simulating, none) := by
    simp only [collidePair]
    rw [if_neg (by rw [hlen]; norm_num [c10A, c10B])]
  have e0 : ((pairwisePhase 0 (c10App 260)).objects.get? 0).map (fun b => b.vel.x)
      = some ((collidePair GameState.Simulating none 0 (c10A 260) c10B).1.vel.x) := rfl
  have e1 : ((pairwisePhase 0 (c10App 260)).objects.get? 1).map (fun b => b.vel.x)
      = some ((collidePair GameState.Simulating none 0 (c10A 260) c10B).2.1.vel.x) := rfl
  refine ⟨by norm_num [c10A, c10B], ?_, ?_, by norm_num⟩
  · rw [e0, hcp]; norm_num [c10A]
  · rw [e1, hcp]; norm_num [c10B]

/-- Claim C10, amended: once A has advanced strictly past the touching
instant (any position 260 < x < 300, giving a positive overlap with A
still left of B), a single pairwise collision step zeroes A's
horizontal velocity and sets B's horizontal velocity to 400 (elastic
equal-mass transfer); at the exactly-touching position the strict
overlap test fails and the step does nothing. -/
theorem c10_amended (x : ℝ) (h1 : 260 < x) (h2 : x < 300) :
    ((pairwisePhase 0 (c10App x)).objects.get? 0).map (fun b => b.vel.x) = some 0 ∧
    ((pairwisePhase 0 (c10App x)).objects.get? 1).map (fun b => b.vel.x) = some 400 := by
  have hsub : c10B.pos - (c10A x).pos = Vec2.mk (300 - x) 0 := by
    simp [c10A, c10B]
  have hlen : (c10B.pos - (c10A x).pos).length = 300 - x := by
    rw [hsub]
    simp only [Vec2.length]
    rw [show (300 - x) * (300 - x) + 0 * 0 = (300 - x) * (300 - x) by ring]
    exact Real.sqrt_mul_self (by linarith)
  have hnorm : (c10B.pos - (c10A x).pos).normalized = Vec2.mk 1 0 := by
    simp only [Vec2.normalized, hlen]
    rw [if_pos (by linarith : (300 - x : ℝ) > 0), hsub]
    ext
    · simp
      exact div_self (by linarith)
    · simp
  have hov : (c10B.pos - (c10A x).pos).length < (c10A x).radius + c10B.radius := by
    rw [hlen]
    norm_num [c10A, c10B]
    linarith
  have hv1 := collidePair_vel_fst GameState.Simulating none 0 (c10A x) c10B hov rfl
  have hv2 := collidePair_vel_snd GameState.Simulating none 0 (c10A x) c10B hov rfl
  rw [hnorm] at hv1 hv2
  have e0 : ((pairwisePhase 0 (c10App x)).objects.get? 0).map (fun b => b.vel.x)
      = some ((collidePair GameState.Simulating none 0 (c10A x) c10B).1.vel.x) := rfl
  have e1 : ((pairwisePhase 0 (c10App x)).objects.get? 1).map (fun b => b.vel.x)
      = some ((collidePair GameState.Simulating none 0 (c10A x) c10B).2.1.vel.x) := rfl
  constructor
  · rw [e0, hv1]
    norm_num [c10A, c10B, min_def]
  · rw [e1, hv2]
    norm_num [c10A, c10B, min_def]

/-- Witness for C10 (amended) at the overlapping position x = 280. -/
theorem c10_witness :
    (260 : ℝ) < 280 ∧ (280 : ℝ) < 300 ∧
    ((pairwisePhase 0 (c10App 280)).objects.get? 0).map (fun b => b.vel.x) = some 0 ∧
    ((pairwisePhase 0 (c10App 280)).objects.get? 1).map (fun b => b.vel.x) = some 400 :=
  ⟨by norm_num, by norm_num, (c10_amended 280 (by norm_num) (by norm_num)).1,
    (c10_amended 280 (by norm_num) (by norm_num)).2⟩
